import Mathlib

/-!
Shallow embedding of the credential store of flow2api
(src/src/core/database_pg.py) together with the admin endpoints that drive it
(src/src/api/admin.py) and the periodic auto-unban task (src/src/main.py).

Machine integers of the source are modelled as `Nat`/`Int`; SQL `TIMESTAMP`
and `DATE` columns are modelled as `Option Nat` (with `none` for SQL NULL),
already normalised to UTC, since only ordering and equality of these values
matter to the verified claims.  Each SQL statement of `PostgresDatabase`
becomes a pure function on an explicit `Store` state; a statement that the
database rejects (or that fails mid-call) is modelled with `Except` results
and explicit failure flags, mirroring asyncpg's autocommit semantics: every
statement that ran before a failure stays committed.
-/

namespace Flow2API

/-- A row of the `tokens` table (src/src/core/database_pg.py, `init_db`,
lines 327-351).  `created_at` is modelled as `Nat` (DEFAULT CURRENT_TIMESTAMP,
never NULL), nullable columns as `Option`. The `at` column is named `at_`
because `at` is a reserved word in Lean. -/
structure Token where
  id : Nat
  st : String
  at_ : Option String
  at_expires : Option Nat
  email : String
  name : Option String
  remark : Option String
  is_active : Bool
  created_at : Nat
  last_used_at : Option Nat
  use_count : Int
  credits : Int
  user_paygate_tier : Option String
  current_project_id : Option String
  current_project_name : Option String
  image_enabled : Bool
  video_enabled : Bool
  image_concurrency : Int
  video_concurrency : Int
  ban_reason : Option String
  banned_at : Option Nat
deriving DecidableEq, Repr

/-- A row of the `token_stats` table (lines 365-381).  The SERIAL surrogate
key of the table is omitted: no operation of the source reads it. -/
structure TokenStats where
  token_id : Nat
  image_count : Nat
  video_count : Nat
  success_count : Nat
  error_count : Nat
  last_success_at : Option Nat
  last_error_at : Option Nat
  today_image_count : Nat
  today_video_count : Nat
  today_error_count : Nat
  today_date : Option Nat
  consecutive_error_count : Nat
deriving DecidableEq, Repr

/-- A row of the `projects` table (lines 353-363). -/
structure Project where
  id : Nat
  project_id : String
  token_id : Nat
  project_name : String
  tool_name : String
  is_active : Bool
deriving DecidableEq, Repr

/-- The visible state of the three tables the claims are about, plus the
`SERIAL` id counter of `tokens`. -/
structure Store where
  tokens : List Token
  token_stats : List TokenStats
  projects : List Project
  nextId : Nat
deriving DecidableEq, Repr

/-- The store of a fresh database: all tables empty (`init_db` creates empty
tables; SERIAL counters start at 1). -/
def emptyStore : Store := { tokens := [], token_stats := [], projects := [], nextId := 1 }

/-! ### get_active_tokens (lines 575-579)

`SELECT * FROM tokens WHERE is_active = true ORDER BY last_used_at ASC`.
PostgreSQL orders ascending with NULLs LAST ("null values sort as if larger
than any non-null value").  `lastUsedLe` is exactly that comparison. -/

/-- PostgreSQL `ORDER BY last_used_at ASC` comparison: non-null values
ascending, NULL greater than every non-null value. -/
def lastUsedLe (a b : Token) : Bool :=
  match a.last_used_at, b.last_used_at with
  | none, none => true
  | none, some _ => false
  | some _, none => true
  | some x, some y => decide (x ≤ y)

/-- `lastUsedLe` as a `Prop` relation, for `List.insertionSort`. -/
def lastUsedOrd (a b : Token) : Prop := lastUsedLe a b = true

instance : DecidableRel lastUsedOrd := fun a b => instDecidableEqBool (lastUsedLe a b) true

instance : IsTotal Token lastUsedOrd := by
  constructor
  intro a b
  unfold lastUsedOrd lastUsedLe
  rcases a.last_used_at with _ | x <;> rcases b.last_used_at with _ | y <;> simp
  exact Nat.le_total x y

instance : IsTrans Token lastUsedOrd := by
  constructor
  intro a b c hab hbc
  unfold lastUsedOrd lastUsedLe at *
  cases ha : a.last_used_at <;> cases hb : b.last_used_at <;> cases hc : c.last_used_at <;>
    simp_all
  omega

/-- `get_active_tokens` (lines 575-579): the active rows, sorted by
`last_used_at ASC` under PostgreSQL NULLS LAST semantics.  Modelled with a
sort that is sorted w.r.t. `lastUsedOrd` and a permutation of the filtered
rows, which is all `ORDER BY` guarantees. -/
def get_active_tokens (s : Store) : List Token :=
  List.insertionSort lastUsedOrd (s.tokens.filter (fun t => t.is_active))

/-- `a` occurs strictly before `b` in the list `l`. -/
def rankBefore (l : List Token) (a b : Token) : Prop :=
  ∃ i j : Fin l.length, i < j ∧ l.get i = a ∧ l.get j = b

instance (l : List Token) (a b : Token) : Decidable (rankBefore l a b) := by
  unfold rankBefore; infer_instance

inductive Kind where
  | image
  | video
deriving DecidableEq, Repr

/-- Modelled from the spec: the Load Balancer
(src/src/services/load_balancer.py is not under src/) — spec section 4.3:
candidates are ranked in `get_active_tokens` order and `reserve` picks the
first candidate whose capability flag for the request kind is enabled and
whose concurrency gate reports free capacity. -/
def reserveModel (k : Kind) (hasCapacity : Nat → Bool) (s : Store) : Option Token :=
  (get_active_tokens s).find? (fun t =>
    (match k with | .image => t.image_enabled | .video => t.video_enabled) && hasCapacity t.id)

/-! ### add_token (lines 527-543)

Two INSERT statements on one connection, with no surrounding transaction:
asyncpg autocommits each statement, so a statement that ran before a later
failure stays committed.  The first INSERT lists only the columns shown in
the source; `created_at` takes its DEFAULT CURRENT_TIMESTAMP, `last_used_at`
and `use_count` and the ban columns take their defaults.  The `st UNIQUE`
constraint of the `tokens` table rejects a duplicate session secret. -/

/-- The row created by the first INSERT of `add_token`: the columns listed in
the statement come from the argument, every other column takes its table
default (`id` from the SERIAL counter, `created_at` from the clock). -/
def insertedToken (t : Token) (newId : Nat) (now : Nat) : Token :=
  { t with id := newId, created_at := now, last_used_at := none, use_count := 0,
           ban_reason := none, banned_at := none }

/-- The row created by `INSERT INTO token_stats (token_id) VALUES ($1)`:
every counter takes its DEFAULT 0, every timestamp its DEFAULT NULL. -/
def newStats (tid : Nat) : TokenStats :=
  { token_id := tid, image_count := 0, video_count := 0, success_count := 0, error_count := 0,
    last_success_at := none, last_error_at := none, today_image_count := 0,
    today_video_count := 0, today_error_count := 0, today_date := none,
    consecutive_error_count := 0 }

/-- `add_token` (lines 527-543) with explicit failure injection.
`failTokens` makes the first INSERT fail for a reason other than the UNIQUE
constraint (e.g. a dropped connection); a duplicate `st` makes it fail via
the constraint.  `failStats` makes the second INSERT fail.  The returned
store is the state visible afterwards: because there is no transaction, a
token row inserted before a failing stats insert stays committed. -/
def add_token_run (t : Token) (now : Nat) (failTokens failStats : Bool) (s : Store) :
    Except String Nat × Store :=
  if failTokens || s.tokens.any (fun x => x.st == t.st) then
    (.error "tokens insert failed", s)
  else
    let tid := s.nextId
    let s1 : Store := { s with tokens := s.tokens ++ [insertedToken t tid now],
                               nextId := s.nextId + 1 }
    if failStats then
      (.error "token_stats insert failed", s1)
    else
      (.ok tid, { s1 with token_stats := s1.token_stats ++ [newStats tid] })

/-! ### update_token (lines 581-601) -/

/-- The keyword arguments of `PostgresDatabase.update_token`: one optional
value per updatable column of `tokens` (`None` = not supplied = skipped).
Numeric `*_at` values are modelled as already converted to timestamps. -/
structure UpdateFields where
  st : Option String
  at_ : Option String
  at_expires : Option Nat
  email : Option String
  name : Option String
  remark : Option String
  is_active : Option Bool
  last_used_at : Option Nat
  use_count : Option Int
  credits : Option Int
  user_paygate_tier : Option String
  current_project_id : Option String
  current_project_name : Option String
  image_enabled : Option Bool
  video_enabled : Option Bool
  image_concurrency : Option Int
  video_concurrency : Option Int
  ban_reason : Option String
  banned_at : Option Nat
deriving DecidableEq, Repr

/-- The call in which every keyword argument is `None`. -/
def noUpdate : UpdateFields :=
  { st := none, at_ := none, at_expires := none, email := none, name := none, remark := none,
    is_active := none, last_used_at := none, use_count := none, credits := none,
    user_paygate_tier := none, current_project_id := none, current_project_name := none,
    image_enabled := none, video_enabled := none, image_concurrency := none,
    video_concurrency := none, ban_reason := none, banned_at := none }

/-- `True` when the built `updates` list of SET clauses is empty, i.e. every
supplied value was `None`. -/
def UpdateFields.allNone (u : UpdateFields) : Bool :=
  u.st.isNone && u.at_.isNone && u.at_expires.isNone && u.email.isNone && u.name.isNone &&
  u.remark.isNone && u.is_active.isNone && u.last_used_at.isNone && u.use_count.isNone &&
  u.credits.isNone && u.user_paygate_tier.isNone && u.current_project_id.isNone &&
  u.current_project_name.isNone && u.image_enabled.isNone && u.video_enabled.isNone &&
  u.image_concurrency.isNone && u.video_concurrency.isNone && u.ban_reason.isNone &&
  u.banned_at.isNone

/-- Effect of the generated `UPDATE tokens SET ...` on one row: each column
with a supplied (non-None) value is set to it, every other column keeps its
stored value. -/
def applyUpdate (u : UpdateFields) (t : Token) : Token :=
  { id := t.id,
    st := u.st.getD t.st,
    at_ := match u.at_ with | some v => some v | none => t.at_,
    at_expires := match u.at_expires with | some v => some v | none => t.at_expires,
    email := u.email.getD t.email,
    name := match u.name with | some v => some v | none => t.name,
    remark := match u.remark with | some v => some v | none => t.remark,
    is_active := u.is_active.getD t.is_active,
    created_at := t.created_at,
    last_used_at := match u.last_used_at with | some v => some v | none => t.last_used_at,
    use_count := u.use_count.getD t.use_count,
    credits := u.credits.getD t.credits,
    user_paygate_tier :=
      match u.user_paygate_tier with | some v => some v | none => t.user_paygate_tier,
    current_project_id :=
      match u.current_project_id with | some v => some v | none => t.current_project_id,
    current_project_name :=
      match u.current_project_name with | some v => some v | none => t.current_project_name,
    image_enabled := u.image_enabled.getD t.image_enabled,
    video_enabled := u.video_enabled.getD t.video_enabled,
    image_concurrency := u.image_concurrency.getD t.image_concurrency,
    video_concurrency := u.video_concurrency.getD t.video_concurrency,
    ban_reason := match u.ban_reason with | some v => some v | none => t.ban_reason,
    banned_at := match u.banned_at with | some v => some v | none => t.banned_at }

/-- `update_token` (lines 581-601): skip every `None` value; when no value
remains, execute no statement at all.  The single generated UPDATE is
atomic; the `st UNIQUE` constraint rejects it when the updated row would
duplicate another row's session secret, leaving the store unchanged. -/
def update_token (tid : Nat) (u : UpdateFields) (s : Store) : Except String Store :=
  if u.allNone then .ok s
  else
    let violation :=
      match u.st with
      | some v => s.tokens.any (fun x => x.id == tid) &&
                  s.tokens.any (fun y => y.id != tid && y.st == v)
      | none => false
    if violation then .error "duplicate key value violates unique constraint tokens_st_key"
    else .ok { s with tokens := s.tokens.map (fun t => if t.id = tid then applyUpdate u t else t) }

/-- `delete_token` (lines 603-608): three DELETE statements removing the
stats rows, the project rows and the token row of the id. -/
def delete_token (tid : Nat) (s : Store) : Store :=
  { s with token_stats := s.token_stats.filter (fun r => r.token_id != tid),
           projects := s.projects.filter (fun p => p.token_id != tid),
           tokens := s.tokens.filter (fun t => t.id != tid) }

/-! ### Per-token counters (lines 705-786) -/

/-- The branch condition of the three increment methods:
`row["today_date"] is not None and row["today_date"] != today`. -/
def rollsOver (today : Nat) : Option Nat → Bool
  | some d => d != today
  | none => false

/-- SET clause of `increment_image_count` when the stored day rolled over:
cumulative counter +1, daily counter restarted at 1, date stamped. -/
def imageSetRollover (today : Nat) (r : TokenStats) : TokenStats :=
  { r with image_count := r.image_count + 1, today_image_count := 1, today_date := some today }

/-- SET clause of `increment_image_count` on the same day (or a NULL date):
cumulative counter +1, daily counter +1, date stamped. -/
def imageSetSame (today : Nat) (r : TokenStats) : TokenStats :=
  { r with image_count := r.image_count + 1, today_image_count := r.today_image_count + 1,
           today_date := some today }

/-- `increment_image_count` (lines 705-727): fetch the row's `today_date`,
choose the SET clause from it, apply that clause to the rows of the id. -/
def increment_image_count (today : Nat) (tid : Nat) (s : Store) : Store :=
  let fetched := s.token_stats.find? (fun r => r.token_id == tid)
  let rollover := match fetched with
    | some row => rollsOver today row.today_date
    | none => false
  if rollover then
    { s with token_stats :=
        s.token_stats.map (fun r => if r.token_id = tid then imageSetRollover today r else r) }
  else
    { s with token_stats :=
        s.token_stats.map (fun r => if r.token_id = tid then imageSetSame today r else r) }

/-- SET clause of `increment_video_count` when the stored day rolled over. -/
def videoSetRollover (today : Nat) (r : TokenStats) : TokenStats :=
  { r with video_count := r.video_count + 1, today_video_count := 1, today_date := some today }

/-- SET clause of `increment_video_count` on the same day (or a NULL date). -/
def videoSetSame (today : Nat) (r : TokenStats) : TokenStats :=
  { r with video_count := r.video_count + 1, today_video_count := r.today_video_count + 1,
           today_date := some today }

/-- `increment_video_count` (lines 729-751). -/
def increment_video_count (today : Nat) (tid : Nat) (s : Store) : Store :=
  let fetched := s.token_stats.find? (fun r => r.token_id == tid)
  let rollover := match fetched with
    | some row => rollsOver today row.today_date
    | none => false
  if rollover then
    { s with token_stats :=
        s.token_stats.map (fun r => if r.token_id = tid then videoSetRollover today r else r) }
  else
    { s with token_stats :=
        s.token_stats.map (fun r => if r.token_id = tid then videoSetSame today r else r) }

/-- SET clause of `increment_error_count` when the stored day rolled over:
both cumulative counters +1, daily error counter restarted at 1. -/
def errorSetRollover (today now : Nat) (r : TokenStats) : TokenStats :=
  { r with error_count := r.error_count + 1,
           consecutive_error_count := r.consecutive_error_count + 1,
           today_error_count := 1, today_date := some today, last_error_at := some now }

/-- SET clause of `increment_error_count` on the same day (or a NULL date). -/
def errorSetSame (today now : Nat) (r : TokenStats) : TokenStats :=
  { r with error_count := r.error_count + 1,
           consecutive_error_count := r.consecutive_error_count + 1,
           today_error_count := r.today_error_count + 1, today_date := some today,
           last_error_at := some now }

/-- `increment_error_count` (lines 753-779). -/
def increment_error_count (today now : Nat) (tid : Nat) (s : Store) : Store :=
  let fetched := s.token_stats.find? (fun r => r.token_id == tid)
  let rollover := match fetched with
    | some row => rollsOver today row.today_date
    | none => false
  if rollover then
    { s with token_stats :=
        s.token_stats.map (fun r => if r.token_id = tid then errorSetRollover today now r else r) }
  else
    { s with token_stats :=
        s.token_stats.map (fun r => if r.token_id = tid then errorSetSame today now r else r) }

/-- SET clause of `reset_error_count`: only `consecutive_error_count = 0`. -/
def resetErrorSet (r : TokenStats) : TokenStats :=
  { r with consecutive_error_count := 0 }

/-- `reset_error_count` (lines 781-786). -/
def reset_error_count (tid : Nat) (s : Store) : Store :=
  { s with token_stats :=
      s.token_stats.map (fun r => if r.token_id = tid then resetErrorSet r else r) }

/-! ### Admin endpoint PUT /api/tokens/id (src/src/api/admin.py, lines 461-500) -/

/-- The request body `UpdateTokenRequest` (admin.py, lines 235-243). -/
structure UpdateTokenRequest where
  st : String
  project_id : Option String
  project_name : Option String
  remark : Option String
  image_enabled : Option Bool
  video_enabled : Option Bool
  image_concurrency : Option Int
  video_concurrency : Option Int
deriving DecidableEq, Repr

/-- Result of `flow_client.st_to_at`: the derived access token and its
(possibly unparsable, hence optional) expiry. -/
structure StToAtResult where
  access_token : String
  expires : Option Nat
deriving DecidableEq, Repr

/-- Modelled from the spec: `TokenManager.update_token`
(src/src/services/token_manager.py is not under src/) — spec section 4.2
`update_credential(id, partial fields)` and section 6: the manager forwards
the supplied partial fields to the store's `update_credential`; the
project hint maps to the `current_project_id`/`current_project_name`
columns of the credential. -/
def tokenManagerUpdateToken (tid : Nat) (stVal atVal : String) (atExpires : Option Nat)
    (projectId projectName remark : Option String) (imageEnabled videoEnabled : Option Bool)
    (imageConcurrency videoConcurrency : Option Int) (s : Store) : Except String Store :=
  update_token tid
    { st := some stVal, at_ := some atVal, at_expires := atExpires, email := none, name := none,
      remark := remark, is_active := none, last_used_at := none, use_count := none,
      credits := none, user_paygate_tier := none, current_project_id := projectId,
      current_project_name := projectName, image_enabled := imageEnabled,
      video_enabled := videoEnabled, image_concurrency := imageConcurrency,
      video_concurrency := videoConcurrency, ban_reason := none, banned_at := none } s

/-- The PUT /api/tokens/id handler `update_token` (admin.py, lines
461-500): first exchange the session secret via `st_to_at`; an exception
there propagates to the `except` clause, so the handler answers HTTP 500
and never reaches the store update.  On success the handler updates the
token with both the new `st` and the derived `at` (plus expiry and the
other request fields).  The pair returned is (response, visible store). -/
def update_token_endpoint (exch : Except String StToAtResult) (tid : Nat)
    (req : UpdateTokenRequest) (s : Store) : Except String Unit × Store :=
  match exch with
  | .error e => (.error e, s)
  | .ok r =>
    match tokenManagerUpdateToken tid req.st r.access_token r.expires req.project_id
        req.project_name req.remark req.image_enabled req.video_enabled
        req.image_concurrency req.video_concurrency s with
    | .ok s' => (.ok (), s')
    | .error e => (.error e, s)

/-! ### Admin endpoint POST /api/tokens/id/refresh-at (admin.py, lines 553-602) -/

/-- How the awaited call `token_manager._refresh_at(token_id)` concludes:
it returns a boolean (its documented failure signal), or raises. -/
inductive RefreshAtCall where
  | returned (success : Bool)
  | raised (msg : String)
deriving DecidableEq, Repr

/-- The handler's HTTP answer: a success body carrying the stored expiry,
or an HTTPException with a status code and detail. -/
inductive RefreshAtResponse where
  | success (atExpires : Option Nat)
  | httpError (status : Nat) (detail : String)
deriving DecidableEq, Repr

/-- The POST /api/tokens/id/refresh-at handler `refresh_at` (admin.py,
lines 553-602).  `tokenAfter` is what `token_manager.get_token` returns
after a successful refresh; were it `None`, the attribute access
`updated_token.id` would raise and the `except Exception` clause would turn
that into HTTP 500 as well.  `returned false` answers HTTP 500, a raised
exception answers HTTP 500 via the final `except` clause. -/
def refresh_at_endpoint (call : RefreshAtCall) (tokenAfter : Option Token) : RefreshAtResponse :=
  match call with
  | .returned true =>
    match tokenAfter with
    | some t => .success t.at_expires
    | none => .httpError 500 "refresh AT failed: attribute access on missing token"
  | .returned false => .httpError 500 "AT refresh failed"
  | .raised m => .httpError 500 ("refresh AT failed: " ++ m)

/-! ### The hourly auto-unban task (src/src/main.py, lines 137-146 and 164-169)

`auto_unban_task` is `while True: try: await asyncio.sleep(3600); await
token_manager.auto_unban_429_tokens() except Exception as e: print(...)`.
`asyncio.CancelledError` derives from `BaseException`, not `Exception`, so
the `except` clause catches a sweep's exception (the loop continues) but
not a cancellation (the task ends).  At shutdown the lifespan calls
`auto_unban_task_handle.cancel()` and awaits the handle, swallowing the
`CancelledError` (lines 164-169). -/

/-- How one loop iteration concludes: the sweep returns, the sweep raises
an `Exception` (caught and printed), or a cancellation is delivered at one
of the iteration's await points (not caught). -/
inductive SweepOutcome where
  | ok
  | exn (msg : String)
  | cancelled
deriving DecidableEq, Repr

/-- Observable events of the task: one sleep per iteration, one sweep
invocation, one caught-and-printed exception. -/
inductive TaskEvent where
  | sleep (seconds : Nat)
  | sweep
  | caught (msg : String)
deriving DecidableEq, Repr

/-- A (finite prefix of a) run of the task: its events, and whether the
task has terminated. -/
structure TaskRun where
  events : List TaskEvent
  finished : Bool
deriving DecidableEq, Repr

/-- Execution of `auto_unban_task` over a finite list of per-iteration
outcomes.  Every iteration first sleeps 3600 seconds, then invokes the
sweep; an `Exception` from the sweep is caught and the loop continues; a
cancellation ends the task at its await point. -/
def auto_unban_task_run : List SweepOutcome → TaskRun
  | [] => { events := [], finished := false }
  | .cancelled :: _ => { events := [.sleep 3600], finished := true }
  | .ok :: rest =>
    let r := auto_unban_task_run rest
    { events := .sleep 3600 :: .sweep :: r.events, finished := r.finished }
  | .exn m :: rest =>
    let r := auto_unban_task_run rest
    { events := .sleep 3600 :: .sweep :: .caught m :: r.events, finished := r.finished }

/-- Checks that in an event list every `sweep` is immediately preceded by a
3600-second sleep; `prev` is the event before the list's head. -/
def sweepsAfterHourSleep (prev : Option TaskEvent) : List TaskEvent → Bool
  | [] => true
  | e :: rest =>
    (if e = .sweep then prev == some (.sleep 3600) else true) && sweepsAfterHourSleep (some e) rest

/-- The lifespan shutdown path (main.py, lines 164-169): the handle is
cancelled, which delivers a cancellation at the task's current await point,
and the handle is awaited.  The run seen by the await is the run of the
iterations performed so far followed by the delivered cancellation. -/
def lifespan_shutdown_run (itersBefore : List SweepOutcome) : TaskRun :=
  auto_unban_task_run (itersBefore ++ [.cancelled])

/-! ### Reachable stores (for the session-secret uniqueness invariant)

The only writers of the `tokens` table in src/src/core/database_pg.py are
`add_token`, `update_token` and `delete_token`; the stats writers are
included for completeness. -/

/-- One store operation. -/
inductive Op where
  | add (t : Token) (now : Nat)
  | update (tid : Nat) (u : UpdateFields)
  | delete (tid : Nat)
  | incImage (today tid : Nat)
  | incVideo (today tid : Nat)
  | incError (today now tid : Nat)
  | resetError (tid : Nat)
deriving Repr

/-- Apply one operation; a database error leaves the store unchanged. -/
def applyOp (s : Store) : Op → Store
  | .add t now => (add_token_run t now false false s).2
  | .update tid u =>
    match update_token tid u s with
    | .ok s' => s'
    | .error _ => s
  | .delete tid => delete_token tid s
  | .incImage today tid => increment_image_count today tid s
  | .incVideo today tid => increment_video_count today tid s
  | .incError today now tid => increment_error_count today now tid s
  | .resetError tid => reset_error_count tid s

/-- The store reached from a fresh database by a sequence of operations. -/
def reach (ops : List Op) : Store := ops.foldl applyOp emptyStore

/-! ## Helper lemmas -/

theorem find?_append_of_forall_false {α : Type} (p : α → Bool) (pre l : List α)
    (h : ∀ x ∈ pre, p x = false) : (pre ++ l).find? p = l.find? p := by
  induction pre with
  | nil => rfl
  | cons a rest ih =>
    have ha : p a = false := h a (by simp)
    simp only [List.cons_append, List.find?, ha]
    exact ih (fun x hx => h x (by simp [hx]))

theorem find?_stats_row (tid : Nat) (pre post : List TokenStats) (row : TokenStats)
    (hrow : row.token_id = tid) (hpre : ∀ x ∈ pre, x.token_id ≠ tid) :
    (pre ++ row :: post).find? (fun r => r.token_id == tid) = some row := by
  rw [find?_append_of_forall_false _ pre _ (fun x hx => by simp [hpre x hx])]
  simp [List.find?, hrow]

theorem map_stats_row (f : TokenStats → TokenStats) (tid : Nat) (pre post : List TokenStats)
    (row : TokenStats) (hrow : row.token_id = tid)
    (hpre : ∀ x ∈ pre, x.token_id ≠ tid) (hpost : ∀ x ∈ post, x.token_id ≠ tid) :
    (pre ++ row :: post).map (fun r => if r.token_id = tid then f r else r) =
      pre ++ f row :: post := by
  rw [List.map_append]
  congr 1
  · rw [List.map_congr_left (g := id) (fun a ha => by simp [hpre a ha]), List.map_id]
  · simp only [List.map_cons, if_pos hrow]
    congr 1
    rw [List.map_congr_left (g := id) (fun a ha => by simp [hpost a ha]), List.map_id]

theorem update_token_ok_map (tid : Nat) (u : UpdateFields) (s s' : Store)
    (hne : u.allNone = false) (h : update_token tid u s = .ok s') :
    s'.tokens = s.tokens.map (fun t => if t.id = tid then applyUpdate u t else t) := by
  unfold update_token at h
  rw [if_neg (by simp [hne])] at h
  dsimp only at h
  split at h
  · exact absurd h (by simp)
  · simp only [Except.ok.injEq] at h
    subst h
    rfl

/-! ## Claims -/

/-- C3: for every counter increment (image, video, or error) on a
credential's stats row: if the stored `today_date` is non-null and differs
from the current server-local date, the corresponding `today_*` counter is
set to 1 and `today_date` to the current date; otherwise the `today_*`
counter is incremented by one; the cumulative counter is incremented by one
in both cases (the daily reset happening lazily inside the increment call). -/
theorem increment_counters_daily_reset (today now tid : Nat) (pre post : List TokenStats)
    (row : TokenStats) (s : Store) (hrow : row.token_id = tid)
    (hs : s.token_stats = pre ++ row :: post)
    (hpre : ∀ x ∈ pre, x.token_id ≠ tid) (hpost : ∀ x ∈ post, x.token_id ≠ tid) :
    (increment_image_count today tid s).token_stats =
      pre ++ { row with image_count := row.image_count + 1,
                        today_image_count :=
                          if rollsOver today row.today_date then 1
                          else row.today_image_count + 1,
                        today_date := some today } :: post ∧
    (increment_video_count today tid s).token_stats =
      pre ++ { row with video_count := row.video_count + 1,
                        today_video_count :=
                          if rollsOver today row.today_date then 1
                          else row.today_video_count + 1,
                        today_date := some today } :: post ∧
    (increment_error_count today now tid s).token_stats =
      pre ++ { row with error_count := row.error_count + 1,
                        consecutive_error_count := row.consecutive_error_count + 1,
                        today_error_count :=
                          if rollsOver today row.today_date then 1
                          else row.today_error_count + 1,
                        today_date := some today,
                        last_error_at := some now } :: post := by
  have hfind := find?_stats_row tid pre post row hrow hpre
  refine ⟨?_, ?_, ?_⟩
  · unfold increment_image_count
    rw [hs, hfind]
    dsimp only
    by_cases hro : rollsOver today row.today_date = true
    · rw [if_pos hro, map_stats_row _ tid pre post row hrow hpre hpost, if_pos hro]
      rfl
    · rw [if_neg hro, map_stats_row _ tid pre post row hrow hpre hpost, if_neg hro]
      rfl
  · unfold increment_video_count
    rw [hs, hfind]
    dsimp only
    by_cases hro : rollsOver today row.today_date = true
    · rw [if_pos hro, map_stats_row _ tid pre post row hrow hpre hpost, if_pos hro]
      rfl
    · rw [if_neg hro, map_stats_row _ tid pre post row hrow hpre hpost, if_neg hro]
      rfl
  · unfold increment_error_count
    rw [hs, hfind]
    dsimp only
    by_cases hro : rollsOver today row.today_date = true
    · rw [if_pos hro, map_stats_row _ tid pre post row hrow hpre hpost, if_pos hro]
      rfl
    · rw [if_neg hro, map_stats_row _ tid pre post row hrow hpre hpost, if_neg hro]
      rfl

/-- Witness for C3 at a concrete one-row store. -/
theorem increment_counters_daily_reset_witness :
    ((newStats 3).token_id = 3) ∧
    (increment_image_count 10 3
        { tokens := [], token_stats := [newStats 3], projects := [], nextId := 4 }).token_stats =
      [] ++ { newStats 3 with image_count := 1,
                              today_image_count :=
                                if rollsOver 10 (newStats 3).today_date then 1
                                else (newStats 3).today_image_count + 1,
                              today_date := some 10 } :: [] := by
  refine ⟨rfl, ?_⟩
  exact (increment_counters_daily_reset 10 11 3 [] [] (newStats 3)
    { tokens := [], token_stats := [newStats 3], projects := [], nextId := 4 }
    rfl rfl (by simp) (by simp)).1

/-- C4: both SET clauses of `increment_error_count` raise
`consecutive_error_count` by exactly one, and the SET clause of
`reset_error_count` puts it to zero while leaving every other stats field
unchanged. -/
theorem consecutive_error_transitions (today now : Nat) (r : TokenStats) :
    (errorSetRollover today now r).consecutive_error_count = r.consecutive_error_count + 1 ∧
    (errorSetSame today now r).consecutive_error_count = r.consecutive_error_count + 1 ∧
    (resetErrorSet r).consecutive_error_count = 0 ∧
    (resetErrorSet r).token_id = r.token_id ∧
    (resetErrorSet r).image_count = r.image_count ∧
    (resetErrorSet r).video_count = r.video_count ∧
    (resetErrorSet r).success_count = r.success_count ∧
    (resetErrorSet r).error_count = r.error_count ∧
    (resetErrorSet r).last_success_at = r.last_success_at ∧
    (resetErrorSet r).last_error_at = r.last_error_at ∧
    (resetErrorSet r).today_image_count = r.today_image_count ∧
    (resetErrorSet r).today_video_count = r.today_video_count ∧
    (resetErrorSet r).today_error_count = r.today_error_count ∧
    (resetErrorSet r).today_date = r.today_date := by
  refine ⟨rfl, rfl, rfl, rfl, rfl, rfl, rfl, rfl, rfl, rfl, rfl, rfl, rfl, rfl⟩

/-- C5: after `delete_token`, no token row with the id and no stats or
project row referencing it remains in the store. -/
theorem delete_token_cascades (tid : Nat) (s : Store) :
    ((delete_token tid s).tokens.all (fun t => t.id != tid)) = true ∧
    ((delete_token tid s).token_stats.all (fun r => r.token_id != tid)) = true ∧
    ((delete_token tid s).projects.all (fun p => p.token_id != tid)) = true := by
  refine ⟨?_, ?_, ?_⟩ <;>
    · rw [List.all_eq_true]
      intro x hx
      exact (List.mem_filter.mp hx).2

/-- A concrete token argument for `add_token`. -/
def sampleToken : Token :=
  { id := 0, st := "st-secret", at_ := some "at-value", at_expires := some 50,
    email := "user@example.com", name := some "user", remark := none, is_active := true,
    created_at := 0, last_used_at := none, use_count := 0, credits := 0,
    user_paygate_tier := none, current_project_id := none, current_project_name := none,
    image_enabled := true, video_enabled := true, image_concurrency := -1,
    video_concurrency := -1, ban_reason := none, banned_at := none }

/-- C2 counterexample: an `add_token` execution in which the second INSERT
fails after the first succeeded leaves a committed token row with no stats
row — the two inserts are not all-or-nothing. -/
theorem add_token_not_atomic :
    (add_token_run sampleToken 7 false true emptyStore).2.tokens.any
        (fun x => x.st == "st-secret") = true ∧
    (add_token_run sampleToken 7 false true emptyStore).2.token_stats = [] := by
  refine ⟨?_, ?_⟩ <;> rfl

/-- C2 (amended): `add_token` issues its two INSERTs as separate
autocommitted statements.  A successful call leaves both the new token row
and its zeroed stats row present; a failure of the token insert leaves the
store unchanged; but a failure of the stats insert after a successful token
insert leaves the token row committed with no new stats row. -/
theorem add_token_insert_semantics (t : Token) (now : Nat) (s : Store) :
    (∀ fT tid s', add_token_run t now fT false s = (.ok tid, s') →
      insertedToken t tid now ∈ s'.tokens ∧ newStats tid ∈ s'.token_stats) ∧
    (∀ fS, add_token_run t now true fS s = (.error "tokens insert failed", s)) ∧
    (s.tokens.any (fun x => x.st == t.st) = false →
      (add_token_run t now false true s).2.tokens = s.tokens ++ [insertedToken t s.nextId now] ∧
      (add_token_run t now false true s).2.token_stats = s.token_stats) := by
  refine ⟨?_, ?_, ?_⟩
  · intro fT tid s' h
    unfold add_token_run at h
    by_cases hg : (fT || s.tokens.any (fun x => x.st == t.st)) = true
    · rw [if_pos hg] at h
      simp at h
    · rw [if_neg hg] at h
      simp only [Bool.false_eq_true, if_false, Prod.mk.injEq, Except.ok.injEq] at h
      obtain ⟨rfl, rfl⟩ := h
      constructor <;> simp
  · intro fS
    unfold add_token_run
    rw [if_pos (by simp)]
  · intro hg
    unfold add_token_run
    rw [if_neg (by simp [hg])]
    exact ⟨rfl, rfl⟩

/-- Witness for C2 (amended): at a concrete store, a successful call leaves
both rows, and with the duplicate-free guard discharged the stats-insert
failure leaves the token row and an unchanged stats table. -/
theorem add_token_insert_semantics_witness :
    (emptyStore.tokens.any (fun x => x.st == sampleToken.st) = false) ∧
    (insertedToken sampleToken 1 7 ∈ (add_token_run sampleToken 7 false false emptyStore).2.tokens ∧
      newStats 1 ∈ (add_token_run sampleToken 7 false false emptyStore).2.token_stats) ∧
    ((add_token_run sampleToken 7 false true emptyStore).2.tokens =
        emptyStore.tokens ++ [insertedToken sampleToken emptyStore.nextId 7] ∧
      (add_token_run sampleToken 7 false true emptyStore).2.token_stats =
        emptyStore.token_stats) := by
  refine ⟨rfl, ?_, ?_⟩
  · exact (add_token_insert_semantics sampleToken 7 emptyStore).1 false 1
      (add_token_run sampleToken 7 false false emptyStore).2 (by rfl)
  · exact (add_token_insert_semantics sampleToken 7 emptyStore).2.2 (by rfl)

/-- C10: the store's partial update skips every field supplied as `None`
(the field keeps its stored value), never clears a nullable field to NULL,
leaves the non-updatable columns alone, and a call in which every value is
`None` executes no statement and leaves the store unmodified. -/
theorem update_token_skips_none (u : UpdateFields) (t : Token) (tid : Nat) (s : Store) :
    (u.st = none → (applyUpdate u t).st = t.st) ∧
    (u.at_ = none → (applyUpdate u t).at_ = t.at_) ∧
    (u.at_expires = none → (applyUpdate u t).at_expires = t.at_expires) ∧
    (u.email = none → (applyUpdate u t).email = t.email) ∧
    (u.name = none → (applyUpdate u t).name = t.name) ∧
    (u.remark = none → (applyUpdate u t).remark = t.remark) ∧
    (u.is_active = none → (applyUpdate u t).is_active = t.is_active) ∧
    (u.last_used_at = none → (applyUpdate u t).last_used_at = t.last_used_at) ∧
    (u.use_count = none → (applyUpdate u t).use_count = t.use_count) ∧
    (u.credits = none → (applyUpdate u t).credits = t.credits) ∧
    (u.user_paygate_tier = none → (applyUpdate u t).user_paygate_tier = t.user_paygate_tier) ∧
    (u.current_project_id = none →
      (applyUpdate u t).current_project_id = t.current_project_id) ∧
    (u.current_project_name = none →
      (applyUpdate u t).current_project_name = t.current_project_name) ∧
    (u.image_enabled = none → (applyUpdate u t).image_enabled = t.image_enabled) ∧
    (u.video_enabled = none → (applyUpdate u t).video_enabled = t.video_enabled) ∧
    (u.image_concurrency = none → (applyUpdate u t).image_concurrency = t.image_concurrency) ∧
    (u.video_concurrency = none → (applyUpdate u t).video_concurrency = t.video_concurrency) ∧
    (u.ban_reason = none → (applyUpdate u t).ban_reason = t.ban_reason) ∧
    (u.banned_at = none → (applyUpdate u t).banned_at = t.banned_at) ∧
    (applyUpdate u t).id = t.id ∧
    (applyUpdate u t).created_at = t.created_at ∧
    (t.at_.isSome = true → (applyUpdate u t).at_.isSome = true) ∧
    (t.at_expires.isSome = true → (applyUpdate u t).at_expires.isSome = true) ∧
    (t.name.isSome = true → (applyUpdate u t).name.isSome = true) ∧
    (t.remark.isSome = true → (applyUpdate u t).remark.isSome = true) ∧
    (t.last_used_at.isSome = true → (applyUpdate u t).last_used_at.isSome = true) ∧
    (t.user_paygate_tier.isSome = true → (applyUpdate u t).user_paygate_tier.isSome = true) ∧
    (t.current_project_id.isSome = true →
      (applyUpdate u t).current_project_id.isSome = true) ∧
    (t.current_project_name.isSome = true →
      (applyUpdate u t).current_project_name.isSome = true) ∧
    (t.ban_reason.isSome = true → (applyUpdate u t).ban_reason.isSome = true) ∧
    (t.banned_at.isSome = true → (applyUpdate u t).banned_at.isSome = true) ∧
    update_token tid noUpdate s = .ok s := by
  refine ⟨?_, ?_, ?_, ?_, ?_, ?_, ?_, ?_, ?_, ?_, ?_, ?_, ?_, ?_, ?_, ?_, ?_, ?_, ?_, ?_,
    ?_, ?_, ?_, ?_, ?_, ?_, ?_, ?_, ?_, ?_, ?_, ?_⟩
  all_goals
    first
    | rfl
    | (intro h; simp [applyUpdate, h]; done)
    | (intro h; simp only [applyUpdate]; split <;> simp_all)

/-- Witness for C10: at a concrete token and an all-`None` call, the fields
stay put and the store is untouched. -/
theorem update_token_skips_none_witness :
    (noUpdate.st = none) ∧ (applyUpdate noUpdate sampleToken).st = sampleToken.st ∧
    (sampleToken.at_.isSome = true) ∧
    (applyUpdate noUpdate sampleToken).at_.isSome = true ∧
    update_token 5 noUpdate emptyStore = .ok emptyStore := by
  have h := update_token_skips_none noUpdate sampleToken 5 emptyStore
  exact ⟨rfl, h.1 rfl, rfl, h.2.2.2.2.2.2.2.2.2.2.2.2.2.2.2.2.2.2.2.2.2.1 rfl,
    h.2.2.2.2.2.2.2.2.2.2.2.2.2.2.2.2.2.2.2.2.2.2.2.2.2.2.2.2.2.2.2⟩

/-- A concrete update request body. -/
def sampleUpdateRequest : UpdateTokenRequest :=
  { st := "new-secret", project_id := some "proj", project_name := some "Proj",
    remark := none, image_enabled := some true, video_enabled := none,
    image_concurrency := none, video_concurrency := some 2 }

/-- C6: the admin update endpoint derives the access value from the new
session secret first, so a failing exchange aborts the request with no
field of the stored credential modified; on success the single store update
sets the secret and the derived access value together. -/
theorem update_endpoint_exchange_first (tid : Nat) (req : UpdateTokenRequest) (s : Store) :
    (∀ e, update_token_endpoint (.error e) tid req s = (.error e, s)) ∧
    (∀ r s', update_token_endpoint (.ok r) tid req s = (.ok (), s') →
      ∀ t ∈ s'.tokens, t.id = tid → t.st = req.st ∧ t.at_ = some r.access_token) := by
  constructor
  · intro e
    rfl
  · intro r s' h t ht htid
    unfold update_token_endpoint at h
    dsimp only at h
    cases hm : tokenManagerUpdateToken tid req.st r.access_token r.expires req.project_id
        req.project_name req.remark req.image_enabled req.video_enabled
        req.image_concurrency req.video_concurrency s with
    | error e =>
      rw [hm] at h
      simp at h
    | ok s2 =>
      rw [hm] at h
      simp only [Prod.mk.injEq, true_and] at h
      subst h
      unfold tokenManagerUpdateToken at hm
      have hmap := update_token_ok_map _ _ _ _ (by simp [UpdateFields.allNone]) hm
      rw [hmap] at ht
      simp only [List.mem_map] at ht
      obtain ⟨x, hx, hxt⟩ := ht
      by_cases hxid : x.id = tid
      · rw [if_pos hxid] at hxt
        rw [← hxt]
        exact ⟨rfl, rfl⟩
      · rw [if_neg hxid] at hxt
        rw [← hxt] at htid
        exact absurd htid hxid

/-- Witness for C6: a concrete failing exchange leaves the concrete store
untouched, and a concrete successful exchange writes both values. -/
theorem update_endpoint_exchange_first_witness :
    (update_token_endpoint (.error "invalid session secret") 4 sampleUpdateRequest
        emptyStore = (.error "invalid session secret", emptyStore)) ∧
    ((update_token_endpoint (.ok ⟨"fresh-at", some 99⟩) 4 sampleUpdateRequest
        emptyStore).1 = .ok ()) := by
  constructor
  · exact (update_endpoint_exchange_first 4 sampleUpdateRequest emptyStore).1
      "invalid session secret"
  · rfl

/-- C7: the manual access-value refresh endpoint answers success, carrying
the stored expiry, exactly when the internal refresh reported success; a
`False` return or a raised exception both become an HTTP 500 error. -/
theorem refresh_endpoint_no_fake_success (call : RefreshAtCall) (tokenAfter : Option Token) :
    (call = .returned false →
      refresh_at_endpoint call tokenAfter = .httpError 500 "AT refresh failed") ∧
    (∀ m, call = .raised m →
      refresh_at_endpoint call tokenAfter = .httpError 500 ("refresh AT failed: " ++ m)) ∧
    (∀ e, refresh_at_endpoint call tokenAfter = .success e →
      call = .returned true ∧ ∃ t, tokenAfter = some t ∧ e = t.at_expires) := by
  refine ⟨?_, ?_, ?_⟩
  · intro h
    subst h
    rfl
  · intro m h
    subst h
    rfl
  · intro e h
    cases call with
    | returned b =>
      cases b with
      | false => simp [refresh_at_endpoint] at h
      | true =>
        cases tokenAfter with
        | none => simp [refresh_at_endpoint] at h
        | some t =>
          simp only [refresh_at_endpoint, RefreshAtResponse.success.injEq] at h
          exact ⟨rfl, t, rfl, h.symm⟩
    | raised m => simp [refresh_at_endpoint] at h

/-- Witness for C7 at concrete calls. -/
theorem refresh_endpoint_no_fake_success_witness :
    (refresh_at_endpoint (.returned false) (some sampleToken) =
      .httpError 500 "AT refresh failed") ∧
    (refresh_at_endpoint (.raised "boom") none =
      .httpError 500 ("refresh AT failed: " ++ "boom")) ∧
    (RefreshAtCall.returned true = .returned true ∧
      ∃ t, some sampleToken = some t ∧ sampleToken.at_expires = t.at_expires) := by
  refine ⟨?_, ?_, ?_⟩
  · exact (refresh_endpoint_no_fake_success (.returned false) (some sampleToken)).1 rfl
  · exact (refresh_endpoint_no_fake_success (.raised "boom") none).2.1 "boom" rfl
  · exact (refresh_endpoint_no_fake_success (.returned true) (some sampleToken)).2.2
      sampleToken.at_expires rfl

/-- C9: the auto-unban sweep runs inside an hourly loop — every sweep
invocation is immediately preceded by a 3600-second sleep, a sweep that
raises an `Exception` never terminates the task, and the lifespan shutdown
cancels the task (after which it has finished rather than being left
detached). -/
theorem auto_unban_task_hourly (outcomes : List SweepOutcome) :
    ((∀ o ∈ outcomes, o ≠ .cancelled) → (auto_unban_task_run outcomes).finished = false) ∧
    (∀ prev, sweepsAfterHourSleep prev (auto_unban_task_run outcomes).events = true) ∧
    ((∀ o ∈ outcomes, o ≠ .cancelled) → (lifespan_shutdown_run outcomes).finished = true) := by
  refine ⟨?_, ?_, ?_⟩
  · intro h
    induction outcomes with
    | nil => rfl
    | cons o rest ih =>
      cases o with
      | ok => exact ih (fun x hx => h x (by simp [hx]))
      | exn m => exact ih (fun x hx => h x (by simp [hx]))
      | cancelled => exact absurd rfl (h .cancelled (by simp))
  · induction outcomes with
    | nil => intro prev; rfl
    | cons o rest ih =>
      intro prev
      cases o with
      | ok =>
        simp only [auto_unban_task_run, sweepsAfterHourSleep]
        simp [ih (some .sweep)]
      | exn m =>
        simp only [auto_unban_task_run, sweepsAfterHourSleep]
        simp [ih (some (.caught m))]
      | cancelled => rfl
  · intro h
    unfold lifespan_shutdown_run
    induction outcomes with
    | nil => rfl
    | cons o rest ih =>
      cases o with
      | ok =>
        simp only [List.cons_append, auto_unban_task_run]
        exact ih (fun x hx => h x (by simp [hx]))
      | exn m =>
        simp only [List.cons_append, auto_unban_task_run]
        exact ih (fun x hx => h x (by simp [hx]))
      | cancelled => exact absurd rfl (h .cancelled (by simp))

/-- Witness for C9: a run with one clean sweep and one raising sweep is
still alive, and shutdown after it terminates the task. -/
theorem auto_unban_task_hourly_witness :
    (∀ o ∈ [SweepOutcome.ok, SweepOutcome.exn "boom"], o ≠ SweepOutcome.cancelled) ∧
    (auto_unban_task_run [SweepOutcome.ok, SweepOutcome.exn "boom"]).finished = false ∧
    sweepsAfterHourSleep none
      (auto_unban_task_run [SweepOutcome.ok, SweepOutcome.exn "boom"]).events = true ∧
    (lifespan_shutdown_run [SweepOutcome.ok, SweepOutcome.exn "boom"]).finished = true := by
  have h := auto_unban_task_hourly [SweepOutcome.ok, SweepOutcome.exn "boom"]
  exact ⟨by decide, h.1 (by decide), h.2.1 none, h.2.2 (by decide)⟩

theorem rankBefore_of_sorted {l : List Token} (hs : l.Sorted lastUsedOrd) {a b : Token}
    (ha : a ∈ l) (hb : b ∈ l) (hne : a ≠ b) (hord : lastUsedLe b a = false) :
    rankBefore l a b := by
  obtain ⟨i, hi⟩ := List.mem_iff_get.mp ha
  obtain ⟨j, hj⟩ := List.mem_iff_get.mp hb
  rcases lt_trichotomy i j with hij | hij | hij
  · exact ⟨i, j, hij, hi, hj⟩
  · subst hij
    exact absurd (hi.symm.trans hj) hne
  · have hrel := hs.rel_get_of_lt hij
    rw [hj, hi] at hrel
    rw [lastUsedOrd, hord] at hrel
    exact absurd hrel (by simp)

theorem mem_get_active_tokens {s : Store} {a : Token} (ha : a ∈ s.tokens)
    (hact : a.is_active = true) : a ∈ get_active_tokens s := by
  unfold get_active_tokens
  rw [(List.perm_insertionSort lastUsedOrd _).mem_iff, List.mem_filter]
  exact ⟨ha, hact⟩

/-- Token A of spec property P4: last used 600 seconds (10 minutes) before B. -/
def p4TokenA : Token :=
  { id := 1, st := "secret-a", at_ := some "at-a", at_expires := some 5000,
    email := "a@example.com", name := none, remark := none, is_active := true,
    created_at := 0, last_used_at := some 400, use_count := 3, credits := 0,
    user_paygate_tier := none, current_project_id := none, current_project_name := none,
    image_enabled := true, video_enabled := true, image_concurrency := -1,
    video_concurrency := -1, ban_reason := none, banned_at := none }

/-- Token B of spec property P4: last used just now. -/
def p4TokenB : Token :=
  { id := 2, st := "secret-b", at_ := some "at-b", at_expires := some 5000,
    email := "b@example.com", name := none, remark := none, is_active := true,
    created_at := 0, last_used_at := some 1000, use_count := 3, credits := 0,
    user_paygate_tier := none, current_project_id := none, current_project_name := none,
    image_enabled := true, video_enabled := true, image_concurrency := -1,
    video_concurrency := -1, ban_reason := none, banned_at := none }

/-- A never-used active token (`last_used_at` NULL). -/
def neverUsedToken : Token :=
  { id := 3, st := "secret-n", at_ := some "at-n", at_expires := some 5000,
    email := "n@example.com", name := none, remark := none, is_active := true,
    created_at := 0, last_used_at := none, use_count := 0, credits := 0,
    user_paygate_tier := none, current_project_id := none, current_project_name := none,
    image_enabled := true, video_enabled := true, image_concurrency := -1,
    video_concurrency := -1, ban_reason := none, banned_at := none }

/-- A store holding the never-used token and the used token A. -/
def nullsStore : Store :=
  { tokens := [neverUsedToken, p4TokenA], token_stats := [], projects := [], nextId := 4 }

/-- C1 counterexample: under PostgreSQL's `ORDER BY last_used_at ASC`,
NULLs sort LAST, so the never-used credential is NOT ranked before the used
one — the claim's "nulls first" ordering fails on `get_active_tokens`. -/
theorem get_active_tokens_nulls_not_first :
    ¬ rankBefore (get_active_tokens nullsStore) neverUsedToken p4TokenA := by
  decide

/-- C1 (amended): `get_active_tokens` returns the active credentials sorted
by ascending `last_used_at` with never-used credentials (NULL) LAST, so
among used credentials the one with the longest idle time comes first:
given eligible A (last used 10 minutes ago) and B (last used just now), A
is ranked before B, any used credential is ranked before any never-used
one, and the modelled `reserve` selects A in the P4 scenario. -/
theorem get_active_tokens_idle_order (s : Store) (a b : Token) :
    (∀ ta tb, a ∈ s.tokens → a.is_active = true → b ∈ s.tokens → b.is_active = true →
      a.last_used_at = some ta → b.last_used_at = some tb → ta < tb →
      rankBefore (get_active_tokens s) a b) ∧
    (∀ ta, a ∈ s.tokens → a.is_active = true → b ∈ s.tokens → b.is_active = true →
      a.last_used_at = some ta → b.last_used_at = none →
      rankBefore (get_active_tokens s) a b) ∧
    reserveModel .image (fun _ => true)
      { tokens := [p4TokenB, p4TokenA], token_stats := [], projects := [], nextId := 3 } =
      some p4TokenA := by
  have hsorted : (get_active_tokens s).Sorted lastUsedOrd :=
    List.sorted_insertionSort lastUsedOrd _
  refine ⟨?_, ?_, ?_⟩
  · intro ta tb ha hact hb hbct hla hlb htlt
    refine rankBefore_of_sorted hsorted (mem_get_active_tokens ha hact)
      (mem_get_active_tokens hb hbct) ?_ ?_
    · intro hab
      rw [hab, hlb] at hla
      simp at hla
      omega
    · unfold lastUsedLe
      rw [hla, hlb]
      simp
      omega
  · intro ta ha hact hb hbct hla hlb
    refine rankBefore_of_sorted hsorted (mem_get_active_tokens ha hact)
      (mem_get_active_tokens hb hbct) ?_ ?_
    · intro hab
      rw [hab, hlb] at hla
      simp at hla
    · unfold lastUsedLe
      rw [hla, hlb]
  · decide

/-- Witness for C1 (amended) at the P4 store: A (last used at 400) is
ranked before B (last used at 1000) and before the never-used token. -/
theorem get_active_tokens_idle_order_witness :
    (p4TokenA ∈ nullsStore.tokens ∧ p4TokenA.is_active = true ∧
      p4TokenA.last_used_at = some 400 ∧ neverUsedToken ∈ nullsStore.tokens ∧
      neverUsedToken.is_active = true ∧ neverUsedToken.last_used_at = none) ∧
    rankBefore (get_active_tokens nullsStore) p4TokenA neverUsedToken := by
  refine ⟨by decide, ?_⟩
  exact (get_active_tokens_idle_order nullsStore p4TokenA neverUsedToken).2.1 400
    (by decide) (by decide) (by decide) (by decide) (by decide) (by decide)

/-! ## Session-secret uniqueness machinery (C8) -/

/-- The invariant maintained by the `tokens` table: SERIAL primary keys are
distinct and below the counter, and the `st UNIQUE` constraint holds. -/
def StoreInv (s : Store) : Prop :=
  s.tokens.Pairwise (fun a b => a.id ≠ b.id) ∧
  s.tokens.Pairwise (fun a b => a.st ≠ b.st) ∧
  ∀ t ∈ s.tokens, t.id < s.nextId

theorem storeInv_empty : StoreInv emptyStore := by
  refine ⟨List.Pairwise.nil, List.Pairwise.nil, ?_⟩
  intro t ht
  simp [emptyStore] at ht

theorem storeInv_of_eq {s s' : Store} (ht : s'.tokens = s.tokens)
    (hn : s'.nextId = s.nextId) (h : StoreInv s) : StoreInv s' := by
  unfold StoreInv at *
  rw [ht, hn]
  exact h

theorem applyUpdate_id (u : UpdateFields) (t : Token) : (applyUpdate u t).id = t.id := rfl

theorem applyUpdate_st_none (u : UpdateFields) (t : Token) (h : u.st = none) :
    (applyUpdate u t).st = t.st := by
  simp [applyUpdate, h]

theorem applyUpdate_st_some (u : UpdateFields) (t : Token) (v : String) (h : u.st = some v) :
    (applyUpdate u t).st = v := by
  simp [applyUpdate, h]

theorem storeInv_add (t : Token) (now : Nat) (s : Store) (h : StoreInv s) :
    StoreInv (add_token_run t now false false s).2 := by
  obtain ⟨hid, hst, hb⟩ := h
  unfold add_token_run
  by_cases hg : (false || s.tokens.any (fun x => x.st == t.st)) = true
  · rw [if_pos hg]
    exact ⟨hid, hst, hb⟩
  · rw [if_neg hg, if_neg (by simp)]
    dsimp only
    have hnost : ∀ x ∈ s.tokens, x.st ≠ t.st := by
      intro x hx hxe
      exact hg (by simp [List.any_eq_true]; exact ⟨x, hx, hxe⟩)
    refine ⟨?_, ?_, ?_⟩
    · rw [List.pairwise_append]
      refine ⟨hid, List.pairwise_singleton _ _, ?_⟩
      intro a ha b hb'
      simp only [List.mem_singleton] at hb'
      subst hb'
      have : a.id < s.nextId := hb a ha
      simp only [insertedToken]
      omega
    · rw [List.pairwise_append]
      refine ⟨hst, List.pairwise_singleton _ _, ?_⟩
      intro a ha b hb'
      simp only [List.mem_singleton] at hb'
      subst hb'
      exact hnost a ha
    · intro x hx
      rw [List.mem_append] at hx
      show x.id < s.nextId + 1
      rcases hx with hx | hx
      · have := hb x hx
        omega
      · simp only [List.mem_singleton] at hx
        subst hx
        simp [insertedToken]

theorem update_token_ok_cases (tid : Nat) (u : UpdateFields) (s s' : Store)
    (h : update_token tid u s = .ok s') :
    s' = s ∨
    (s'.nextId = s.nextId ∧
      s'.tokens = s.tokens.map (fun t => if t.id = tid then applyUpdate u t else t) ∧
      ∀ v, u.st = some v →
        (∀ x ∈ s.tokens, x.id ≠ tid) ∨ (∀ y ∈ s.tokens, y.id ≠ tid → y.st ≠ v)) := by
  unfold update_token at h
  by_cases h1 : u.allNone = true
  · rw [if_pos h1] at h
    simp only [Except.ok.injEq] at h
    exact Or.inl h.symm
  · rw [if_neg h1] at h
    dsimp only at h
    split at h
    · exact absurd h (by simp)
    · simp only [Except.ok.injEq] at h
      subst h
      rename_i hneg
      refine Or.inr ⟨rfl, rfl, ?_⟩
      intro v huv
      rw [huv] at hneg
      simp only [Bool.and_eq_true, not_and_or, List.any_eq_true, not_exists] at hneg
      rcases hneg with hneg | hneg
      · left
        intro x hx hxid
        rcases hneg x with h' | h'
        · exact h' hx
        · exact h' (by simp [hxid])
      · right
        intro y hy hyid hye
        rcases hneg y with h' | h' | h'
        · exact h' hy
        · exact h' (by simp [hyid])
        · exact h' (by simp [hye])

theorem pairwise_st_map_of_guard (tid : Nat) (u : UpdateFields) (v : String)
    (huv : u.st = some v) :
    ∀ l : List Token, l.Pairwise (fun a b => a.id ≠ b.id) →
      l.Pairwise (fun a b => a.st ≠ b.st) → (∀ y ∈ l, y.id ≠ tid → y.st ≠ v) →
      (l.map (fun x => if x.id = tid then applyUpdate u x else x)).Pairwise
        (fun a b => a.st ≠ b.st) := by
  intro l
  induction l with
  | nil =>
    intro _ _ _
    exact List.Pairwise.nil
  | cons x xs ih =>
    intro hid hst hguard
    rw [List.pairwise_cons] at hid hst
    rw [List.map_cons, List.pairwise_cons]
    refine ⟨?_, ih hid.2 hst.2 (fun y hy => hguard y (by simp [hy]))⟩
    intro y' hy'
    rw [List.mem_map] at hy'
    obtain ⟨y, hy, hyy⟩ := hy'
    subst hyy
    by_cases hx : x.id = tid
    · rw [if_pos hx]
      have hyid : y.id ≠ tid := by
        have := hid.1 y hy
        omega
      rw [if_neg hyid, applyUpdate_st_some u x v huv]
      exact fun hv => hguard y (by simp [hy]) hyid hv.symm
    · rw [if_neg hx]
      by_cases hyid : y.id = tid
      · rw [if_pos hyid, applyUpdate_st_some u y v huv]
        exact hguard x (by simp) hx
      · rw [if_neg hyid]
        exact hst.1 y hy

theorem storeInv_update (tid : Nat) (u : UpdateFields) (s : Store) (h : StoreInv s) :
    StoreInv (applyOp s (.update tid u)) := by
  have hmain : ∀ s' : Store, update_token tid u s = .ok s' → StoreInv s' := by
    intro s' hres
    rcases update_token_ok_cases tid u s s' hres with heq | ⟨hnid, htok, hguard⟩
    · subst heq
      exact h
    · obtain ⟨hid, hst, hb⟩ := h
      refine ⟨?_, ?_, ?_⟩
      · rw [htok]
        exact hid.map _ (fun a b hab => by
          by_cases ha : a.id = tid <;> by_cases hbb : b.id = tid <;>
            simp [ha, hbb, applyUpdate_id, hab] <;> omega)
      · rw [htok]
        cases huv : u.st with
        | none =>
          exact hst.map _ (fun a b hab => by
            by_cases ha : a.id = tid <;> by_cases hbb : b.id = tid <;>
              simp [ha, hbb, applyUpdate_st_none _ _ huv, hab])
        | some v =>
          rcases hguard v huv with hnone | hother
          · have : s.tokens.map (fun x => if x.id = tid then applyUpdate u x else x) =
                s.tokens := by
              rw [List.map_congr_left (g := id) (fun a ha => by simp [hnone a ha]),
                List.map_id]
            rw [this]
            exact hst
          · exact pairwise_st_map_of_guard tid u v huv s.tokens hid hst hother
      · intro x hx
        rw [htok, List.mem_map] at hx
        obtain ⟨y, hy, hyx⟩ := hx
        subst hyx
        rw [hnid]
        by_cases hyid : y.id = tid
        · rw [if_pos hyid, applyUpdate_id]
          exact hb y hy
        · rw [if_neg hyid]
          exact hb y hy
  unfold applyOp
  dsimp only
  cases hres : update_token tid u s with
  | error e => exact h
  | ok s' => exact hmain s' hres

theorem storeInv_delete (tid : Nat) (s : Store) (h : StoreInv s) :
    StoreInv (delete_token tid s) := by
  obtain ⟨hid, hst, hb⟩ := h
  refine ⟨hid.sublist (List.filter_sublist _), hst.sublist (List.filter_sublist _), ?_⟩
  intro x hx
  exact hb x (List.mem_filter.mp hx).1

theorem tokens_increment_image (today tid : Nat) (s : Store) :
    (increment_image_count today tid s).tokens = s.tokens := by
  unfold increment_image_count
  dsimp only
  split <;> rfl

theorem tokens_increment_video (today tid : Nat) (s : Store) :
    (increment_video_count today tid s).tokens = s.tokens := by
  unfold increment_video_count
  dsimp only
  split <;> rfl

theorem tokens_increment_error (today now tid : Nat) (s : Store) :
    (increment_error_count today now tid s).tokens = s.tokens := by
  unfold increment_error_count
  dsimp only
  split <;> rfl

theorem nextId_increment_image (today tid : Nat) (s : Store) :
    (increment_image_count today tid s).nextId = s.nextId := by
  unfold increment_image_count
  dsimp only
  split <;> rfl

theorem nextId_increment_video (today tid : Nat) (s : Store) :
    (increment_video_count today tid s).nextId = s.nextId := by
  unfold increment_video_count
  dsimp only
  split <;> rfl

theorem nextId_increment_error (today now tid : Nat) (s : Store) :
    (increment_error_count today now tid s).nextId = s.nextId := by
  unfold increment_error_count
  dsimp only
  split <;> rfl

theorem storeInv_applyOp (s : Store) (op : Op) (h : StoreInv s) : StoreInv (applyOp s op) := by
  cases op with
  | add t now => exact storeInv_add t now s h
  | update tid u => exact storeInv_update tid u s h
  | delete tid => exact storeInv_delete tid s h
  | incImage today tid =>
    exact storeInv_of_eq (tokens_increment_image today tid s)
      (nextId_increment_image today tid s) h
  | incVideo today tid =>
    exact storeInv_of_eq (tokens_increment_video today tid s)
      (nextId_increment_video today tid s) h
  | incError today now tid =>
    exact storeInv_of_eq (tokens_increment_error today now tid s)
      (nextId_increment_error today now tid s) h
  | resetError tid => exact storeInv_of_eq rfl rfl h

theorem storeInv_foldl (ops : List Op) : ∀ s : Store, StoreInv s →
    StoreInv (ops.foldl applyOp s) := by
  induction ops with
  | nil => exact fun s h => h
  | cons op rest ih =>
    intro s h
    exact ih (applyOp s op) (storeInv_applyOp s op h)

/-- C8: in every reachable store state no two credential rows share a
session secret, and inserting a credential whose session secret is already
present fails, leaving the store unchanged. -/
theorem session_secret_unique (ops : List Op) (t : Token) (now : Nat) (s : Store) :
    (reach ops).tokens.Pairwise (fun a b => a.st ≠ b.st) ∧
    (s.tokens.any (fun x => x.st == t.st) = true →
      add_token_run t now false false s = (.error "tokens insert failed", s)) := by
  constructor
  · exact (storeInv_foldl ops emptyStore storeInv_empty).2.1
  · intro hdup
    unfold add_token_run
    rw [if_pos (by simp [hdup])]

/-- Witness for C8: adding a token whose secret equals the stored
`p4TokenA`'s secret fails on a concrete store. -/
theorem session_secret_unique_witness :
    (nullsStore.tokens.any (fun x => x.st == p4TokenA.st) = true) ∧
    add_token_run p4TokenA 9 false false nullsStore =
      (.error "tokens insert failed", nullsStore) := by
  refine ⟨by decide, ?_⟩
  exact (session_secret_unique [] p4TokenA 9 nullsStore).2 (by decide)

end Flow2API
